import Mathlib

/-!
Shallow embedding of the AgentCore-Browser Chrome-extension demo scripts
(`main.py`, `s3_manager.py`, `browser_with_extension.py`, `setup_extension.py`,
`setup_bedrock_summary_extension.py`).

Python strings are modelled as lists of characters (`Str`), so that the
string operations the scripts use (`startswith`, `endswith`, `split(sep, 1)`,
slicing) become ordinary list functions that are easy to reason about.
The AWS SDK calls are modelled by explicit oracles: an abstract bucket state
for `head_bucket` / `create_bucket`, an association list for the object
store, and explicit outcome parameters for calls whose success depends only
on the network.  Every operation additionally returns the list of service
calls it issued, so "no network call is made" is a statement about that
trace.
-/

/-- A Python string, modelled as its list of characters. -/
abbrev Str := List Char

/-- Model of Python `s.startswith(p)`: `strStartsWith p s` is true when `p`
is a prefix of `s`. -/
def strStartsWith : Str → Str → Bool
  | [], _ => true
  | _ :: _, [] => false
  | p :: ps, c :: cs => decide (p = c) && strStartsWith ps cs

/-- Model of Python `s.endswith(suf)`. -/
def strEndsWith (s suf : Str) : Bool :=
  strStartsWith suf.reverse s.reverse

/-- Model of Python `s.split(sep, 1)`: the part before the first occurrence
of `sep`, and `some` remainder when `sep` occurs (`none` otherwise). -/
def splitFirst (sep : Char) : Str → Str × Option Str
  | [] => ([], none)
  | c :: cs =>
    if c = sep then ([], some cs)
    else
      let r := splitFirst sep cs
      (c :: r.1, r.2)

/-- Model of Python `name.startswith('.')` used to detect hidden files. -/
def hiddenName : Str → Bool
  | [] => false
  | c :: _ => decide (c = '.')

/-- The characters of the `s3://` scheme that valid storage locators start
with (`s3_manager.verify_access`, `browser_with_extension`). -/
def s3SchemeChars : Str := "s3://".data

/-! ## Extension packaging (`setup_extension.py`, `setup_bedrock_summary_extension.py`)

A directory tree of regular files is modelled by `FSTree`; an archive is
the list of its entries, each entry being the path (list of name
components) of the archived file relative to the directory being packaged. -/

/-- A file-system tree: a regular file or a directory with children. -/
inductive FSTree where
  | file (name : Str)
  | dir (name : Str) (children : List FSTree)

/-- Model of `ExtensionSetup.package_extension` (setup_extension.py:244-249):
`os.walk` over the extension directory adds every regular file, with
`arcname = file_path.relative_to(self.extension_dir)`.  No file is
excluded.  The argument is the list of children of the extension directory;
the result is the list of archive entries (relative paths).  Entry order
follows the tree; the claims are about membership. -/
def package_extension : List FSTree → List (List Str)
  | [] => []
  | .file n :: rest => [n] :: package_extension rest
  | .dir n cs :: rest =>
      (package_extension cs).map (fun p => n :: p) ++ package_extension rest

/-- The file filter of `BedrockSummaryExtensionSetup.package_extension`
(setup_bedrock_summary_extension.py:340): skip hidden files and source
maps. -/
def bedrockFileSkipped (n : Str) : Bool :=
  hiddenName n || strEndsWith n (".map".data)

/-- The directory filter of `BedrockSummaryExtensionSetup.package_extension`
(setup_bedrock_summary_extension.py:336): prune hidden directories and
`node_modules`. -/
def bedrockDirSkipped (n : Str) : Bool :=
  hiddenName n || decide (n = ("node_modules".data))

/-- Model of the `os.walk` loop of
`BedrockSummaryExtensionSetup.package_extension`
(setup_bedrock_summary_extension.py:333-345): prune hidden/`node_modules`
directories, skip hidden and `.map` files, archive the rest with relative
paths. -/
def bedrock_walk_entries : List FSTree → List (List Str)
  | [] => []
  | .file n :: rest =>
      if bedrockFileSkipped n then bedrock_walk_entries rest
      else [n] :: bedrock_walk_entries rest
  | .dir n cs :: rest =>
      if bedrockDirSkipped n then bedrock_walk_entries rest
      else (bedrock_walk_entries cs).map (fun p => n :: p) ++ bedrock_walk_entries rest

/-- Characterisation predicate: `existsFileAt cs p = true` iff `p` is the
relative path of a regular file in the tree whose children are `cs`. -/
def existsFileAt : List FSTree → List Str → Bool
  | [], _ => false
  | .file m :: cs, p =>
      (match p with
       | [n] => decide (m = n)
       | _ => false) || existsFileAt cs p
  | .dir m cs1 :: cs, p =>
      (match p with
       | n :: q => decide (m = n) && existsFileAt cs1 q
       | _ => false) || existsFileAt cs p

/-- A relative path is excluded by the bedrock walk when some directory
component is hidden or `node_modules`, or the file name is hidden or a
source map. -/
def bedrockExcluded : List Str → Bool
  | [] => true
  | [n] => bedrockFileSkipped n
  | n :: p => bedrockDirSkipped n || bedrockExcluded p

/-- Presence of the required descriptor file checked at
setup_bedrock_summary_extension.py:322-325: `manifest.json` at the top of
the build directory. -/
def hasManifest (cs : List FSTree) : Bool :=
  existsFileAt cs [("manifest.json".data)]

/-- Model of `BedrockSummaryExtensionSetup.package_extension`
(setup_bedrock_summary_extension.py:302-355): returns `none` when
`manifest.json` is missing, otherwise the archive produced by the filtered
walk. -/
def bedrock_package_extension (cs : List FSTree) : Option (List (List Str)) :=
  if hasManifest cs then some (bedrock_walk_entries cs) else none

/-! ## S3 model (`s3_manager.py`) -/

/-- The error codes of `botocore.ClientError` that the scripts branch on,
plus a catch-all. -/
inductive AwsErr where
  | notFound404
  | accessDenied403
  | alreadyOwnedByYou
  | bucketAlreadyExists
  | otherError
deriving DecidableEq

/-- The S3 service calls the scripts can issue; operations return the list
of calls they made. -/
inductive S3Call where
  | headBucket
  | createBucket
  | uploadFile (bucket key : Str)
  | headObject
deriving DecidableEq

/-- Abstract state of the configured bucket name, as the `head_bucket` /
`create_bucket` APIs observe it.  `ownedHeadMiss` and `takenHeadMiss` model
the race in which `head_bucket` reports 404 but creation then reports the
bucket as already existing. -/
inductive BucketState where
  | absent
  | ownedByCaller
  | existsNoAccess
  | ownedHeadMiss
  | takenHeadMiss
  | headFails
deriving DecidableEq

/-- Model of the `head_bucket` API call on each bucket state. -/
def headBucket : BucketState → Except AwsErr Unit
  | .ownedByCaller => .ok ()
  | .existsNoAccess => .error .accessDenied403
  | .absent => .error .notFound404
  | .ownedHeadMiss => .error .notFound404
  | .takenHeadMiss => .error .notFound404
  | .headFails => .error .otherError

/-- Model of `S3Manager.bucket_exists` (s3_manager.py:28-45): 404 means
absent, 403 is treated as existing, any other error is re-raised. -/
def bucket_exists (s : BucketState) : Except AwsErr Bool :=
  match headBucket s with
  | .ok _ => .ok true
  | .error .notFound404 => .ok false
  | .error .accessDenied403 => .ok true
  | .error e => .error e

/-- Model of the `create_bucket` API call: creates the bucket when absent,
otherwise reports the appropriate already-exists error. -/
def createBucketApi : BucketState → BucketState × Except AwsErr Unit
  | .absent => (.ownedByCaller, .ok ())
  | .ownedByCaller => (.ownedByCaller, .error .alreadyOwnedByYou)
  | .ownedHeadMiss => (.ownedHeadMiss, .error .alreadyOwnedByYou)
  | .takenHeadMiss => (.takenHeadMiss, .error .bucketAlreadyExists)
  | .existsNoAccess => (.existsNoAccess, .error .bucketAlreadyExists)
  | .headFails => (.headFails, .error .otherError)

/-- Model of `S3Manager.create_bucket` (s3_manager.py:47-87): return `true`
when the bucket already exists; otherwise create it, treating
`BucketAlreadyOwnedByYou` as success, `BucketAlreadyExists` as failure
(`false`), and re-raising anything else.  The result carries the new
bucket state, the returned/raised value, and the trace of S3 calls. -/
def create_bucket (s : BucketState) :
    BucketState × Except AwsErr Bool × List S3Call :=
  match bucket_exists s with
  | .error e => (s, .error e, [.headBucket])
  | .ok true => (s, .ok true, [.headBucket])
  | .ok false =>
    let r := createBucketApi s
    match r.2 with
    | .ok _ => (r.1, .ok true, [.headBucket, .createBucket])
    | .error .alreadyOwnedByYou => (r.1, .ok true, [.headBucket, .createBucket])
    | .error .bucketAlreadyExists => (r.1, .ok false, [.headBucket, .createBucket])
    | .error e => (r.1, .error e, [.headBucket, .createBucket])

/-- The object store: uploaded objects as `((bucket, key), size)` entries,
most recent first. -/
abbrev ObjStore := List ((Str × Str) × Nat)

/-- Size lookup in the object store. -/
def lookupSize : ObjStore → Str → Str → Option Nat
  | [], _, _ => none
  | ((b, k), n) :: rest, bucket, key =>
    if b = bucket ∧ k = key then some n else lookupSize rest bucket key

/-- The default object key of `S3Manager.upload_extension`
(s3_manager.py:99-100): `extensions/<filename>`. -/
def extensionsKey (name : Str) : Str := ("extensions/".data) ++ name

/-- The S3 URI built at s3_manager.py:118: `s3://<bucket>/<key>`. -/
def mkS3Uri (bucket key : Str) : Str := s3SchemeChars ++ bucket ++ '/' :: key

/-- Model of `S3Manager.upload_extension` (s3_manager.py:89-126): choose the
key, attempt the upload (`netFail` injects an upload failure, which the
code re-raises), record the object, and return the S3 URI. -/
def upload_extension (store : ObjStore) (bucket : Str) (name : Str) (size : Nat)
    (keyArg : Option Str) (netFail : Bool) :
    ObjStore × Except AwsErr Str × List S3Call :=
  let key := keyArg.getD (extensionsKey name)
  if netFail then (store, .error .otherError, [.uploadFile bucket key])
  else (((bucket, key), size) :: store, .ok (mkS3Uri bucket key), [.uploadFile bucket key])

/-- Model of the `head_object` API call: `denied` injects a 403; otherwise
look the object up, reporting 404 when absent and its `ContentLength`
otherwise. -/
def head_object (store : ObjStore) (bucket key : Str) (denied : Bool) :
    Except AwsErr Nat :=
  if denied then .error .accessDenied403
  else
    match lookupSize store bucket key with
    | some n => .ok n
    | none => .error .notFound404

/-- Model of `S3Manager.verify_access` (s3_manager.py:128-167): reject URIs
that do not start with `s3://` before any call; otherwise parse
`s3_uri[5:].split('/', 1)` into bucket and key and call `head_object`,
returning `false` on any client error.  The middle component is the
`ContentLength` the code reports on success. -/
def verify_access (store : ObjStore) (uri : Str) (denied : Bool) :
    Bool × Option Nat × List S3Call :=
  if strStartsWith s3SchemeChars uri then
    let parts := splitFirst '/' (uri.drop 5)
    let bucket := parts.1
    let key := (parts.2).getD []
    match head_object store bucket key denied with
    | .ok n => (true, some n, [.headObject])
    | .error _ => (false, none, [.headObject])
  else (false, none, [])

/-- Model of `S3Manager.setup_and_upload` (s3_manager.py:169-196): create
the bucket (`false` result or raised error ends the workflow), upload
(an upload error is caught and yields `none`), run `verify_access` and
ignore its result, and return the URI. -/
def setup_and_upload (s : BucketState) (store : ObjStore) (bucket : Str)
    (name : Str) (size : Nat) (netFail : Bool) (denied : Bool) :
    BucketState × ObjStore × Except AwsErr (Option Str) :=
  let cb := create_bucket s
  match cb.2.1 with
  | .error e => (cb.1, store, .error e)
  | .ok false => (cb.1, store, .ok none)
  | .ok true =>
    let up := upload_extension store bucket name size none netFail
    match up.2.1 with
    | .error _ => (cb.1, up.1, .ok none)
    | .ok uri =>
      let _ := verify_access up.1 uri denied
      (cb.1, up.1, .ok (some uri))

/-! ## Temporary credentials (`setup_extension.py`) -/

/-- The `Credentials` block of an STS `get_session_token` response. -/
structure StsCredentials where
  accessKeyId : Str
  secretAccessKey : Str
  sessionToken : Str
  expiration : Str
deriving DecidableEq

/-- The network calls of the orchestrator model that are not S3 or
browser-session calls. -/
inductive NetCall where
  | getCallerIdentity
  | getSessionToken (durationSeconds : Nat)
deriving DecidableEq

/-- Lookup in a Python dict modelled as an association list. -/
def dictGet (d : List (Str × Str)) (k : Str) : Option Str :=
  match d with
  | [] => none
  | (k0, v) :: rest => if k0 = k then some v else dictGet rest k

/-- The dict literally built at setup_extension.py:53-57: only the three
key fields of the response, no `Expiration` entry. -/
def stsDict (c : StsCredentials) : List (Str × Str) :=
  [(("AccessKeyId".data), c.accessKeyId),
   (("SecretAccessKey".data), c.secretAccessKey),
   (("SessionToken".data), c.sessionToken)]

/-- Model of `ExtensionSetup.get_temporary_credentials`
(setup_extension.py:33-61): one `get_session_token` call with the duration
parameter; on success return a dict with exactly the `AccessKeyId`,
`SecretAccessKey` and `SessionToken` fields (the expiration is only
printed); on failure re-raise the error.  `respond` is the service's
answer to the single call. -/
def get_temporary_credentials (respond : Except AwsErr StsCredentials)
    (durationSeconds : Nat) :
    Except AwsErr (List (Str × Str)) × List NetCall :=
  (match respond with
   | .error e => .error e
   | .ok c => .ok (stsDict c),
   [.getSessionToken durationSeconds])

/-! ## Browser sessions (`browser_with_extension.py`) -/

/-- The browser-session service calls. -/
inductive BrowserCall where
  | startBrowserSession (locations : List (Str × Str))
  | stopBrowserSession (sessionId : Nat)
deriving DecidableEq

/-- The URI-parsing loop of `BrowserWithExtension.create_browser_session`
(browser_with_extension.py:44-59): a URI that starts with `s3://` is
parsed into a `(bucket, key)` location; any other URI is silently
dropped. -/
def parseExtensionLocations (uris : List Str) : List (Str × Str) :=
  uris.filterMap fun u =>
    if strStartsWith s3SchemeChars u then
      let parts := splitFirst '/' (u.drop 5)
      some (parts.1, (parts.2).getD [])
    else none

/-- Model of `BrowserWithExtension.create_browser_session`
(browser_with_extension.py:27-113): build the extension-location list from
the URIs, then issue `start_browser_session` unconditionally; a service
error is re-raised, success yields the session id.  `api` is the service's
answer to the call. -/
def create_browser_session (uris : List Str) (api : Except AwsErr Nat) :
    Except AwsErr Nat × List BrowserCall :=
  (match api with
   | .error e => .error e
   | .ok sid => .ok sid,
   [.startBrowserSession (parseExtensionLocations uris)])

/-- Model of `BrowserWithExtension.close_session`
(browser_with_extension.py:198-214).  `session` is
`browser_session`/`session_id` (both set together); `stopRaises` says
whether `stop_browser_session` would raise (non-existent or already-closed
session).  The result is the new session field, the calls made, and
whether an exception escaped — the `except` clause means none ever does.
On a stop error the fields are not reset. -/
def close_session (session : Option Nat) (stopRaises : Bool) :
    Option Nat × List BrowserCall × Bool :=
  match session with
  | none => (none, [], false)
  | some sid =>
    if stopRaises then (some sid, [.stopBrowserSession sid], false)
    else (none, [.stopBrowserSession sid], false)

/-! ## Orchestrator (`main.py`) -/

/-- The numbered steps of `ExtensionDemo.run`. -/
inductive Stage where
  | prereq
  | prepare
  | upload
  | createBrowser
  | testExt
deriving DecidableEq

/-- Outcome of a pipeline stage: its boolean result, or a
`KeyboardInterrupt` escaping it (stage wrappers catch `Exception`, which
in Python does not include `KeyboardInterrupt`). -/
inductive StageOutcome where
  | ok
  | fail
  | intr
deriving DecidableEq

/-- The inputs and oracle outcomes of one `ExtensionDemo.run` invocation:
whether the STS identity call succeeds, the `--extension-zip` paths with
their `exists()` results, the outcomes of the prepare / upload /
create-browser stages, the ignored boolean of `test_extension`, and the
`--prepare-only` flag. -/
structure RunInput where
  stsOk : Bool
  extensions : List (Str × Bool)
  prepareOut : StageOutcome
  uploadOut : StageOutcome
  createOut : StageOutcome
  testOk : Bool
  prepareOnly : Bool
deriving DecidableEq

/-- The observable result of `ExtensionDemo.run`: the process exit code,
the stages that were entered, whether `cleanup` ran, whether cleanup
issued `stop_browser_session`, and the network calls made by the
prerequisites stage. -/
structure RunResult where
  exitCode : Nat
  executed : List Stage
  cleanupRan : Bool
  stopSessionCalled : Bool
  prereqNetCalls : List NetCall
deriving DecidableEq

/-- Model of `check_iam_permissions` (browser_with_extension.py:225-253):
always attempts `sts.get_caller_identity`; an exception yields `False`. -/
def check_iam_permissions (stsOk : Bool) : Bool × List NetCall :=
  (stsOk, [.getCallerIdentity])

/-- Model of `ExtensionDemo.check_prerequisites` (main.py:86-121): fail when
the identity check fails; with a non-empty extension list fail when some
listed file does not exist; with an empty list print a warning and fail.
No call beyond the identity check is made. -/
def check_prerequisites (stsOk : Bool) (exts : List (Str × Bool)) :
    Bool × List NetCall :=
  let iam := check_iam_permissions stsOk
  if !iam.1 then (false, iam.2)
  else if exts.isEmpty then (false, iam.2)
  else (exts.all (fun e => e.2), iam.2)

/-- Model of `ExtensionDemo.run` (main.py:261-325).  Each failed guard
returns 1; a `KeyboardInterrupt` escaping a stage is caught once at the
top level and returns 130; `--prepare-only` returns 0 after the upload;
the boolean result of `test_extension` is ignored and the run returns 0.
The `finally` block runs `cleanup` on every path; cleanup stops the
browser session only when one was established (the create stage
succeeded).  `prereqNetCalls` records the network calls of the
prerequisites stage — the only stage whose calls matter to the claims
about runs that stop there. -/
def run (i : RunInput) : RunResult :=
  let pre := check_prerequisites i.stsOk i.extensions
  if !pre.1 then ⟨1, [.prereq], true, false, pre.2⟩
  else
    match i.prepareOut with
    | .fail => ⟨1, [.prereq, .prepare], true, false, pre.2⟩
    | .intr => ⟨130, [.prereq, .prepare], true, false, pre.2⟩
    | .ok =>
      match i.uploadOut with
      | .fail => ⟨1, [.prereq, .prepare, .upload], true, false, pre.2⟩
      | .intr => ⟨130, [.prereq, .prepare, .upload], true, false, pre.2⟩
      | .ok =>
        if i.prepareOnly then ⟨0, [.prereq, .prepare, .upload], true, false, pre.2⟩
        else
          match i.createOut with
          | .fail => ⟨1, [.prereq, .prepare, .upload, .createBrowser], true, false, pre.2⟩
          | .intr => ⟨130, [.prereq, .prepare, .upload, .createBrowser], true, false, pre.2⟩
          | .ok =>
            ⟨0, [.prereq, .prepare, .upload, .createBrowser, .testExt], true, true, pre.2⟩

/-! ## Helper lemmas -/

/-- A list is a `strStartsWith`-prefix of itself followed by anything. -/
theorem strStartsWith_append (p rest : Str) :
    strStartsWith p (p ++ rest) = true := by
  induction p with
  | nil => rfl
  | cons c cs ih => simp [strStartsWith, ih]

/-- `splitFirst` recovers the two halves around the first separator. -/
theorem splitFirst_append (sep : Char) (b k : Str) (hb : sep ∉ b) :
    splitFirst sep (b ++ sep :: k) = (b, some k) := by
  induction b with
  | nil => simp [splitFirst]
  | cons c cs ih =>
    simp only [List.mem_cons, not_or] at hb
    simp [splitFirst, Ne.symm hb.1, ih hb.2]

/-- The empty path is never a file path. -/
theorem existsFileAt_nil (cs : List FSTree) : existsFileAt cs [] = false := by
  induction cs with
  | nil => simp [existsFileAt]
  | cons c rest ih => cases c <;> simp [existsFileAt, ih]

/-! ## Claims -/

/-- Claim C2: bucket creation is idempotent — for a bucket already owned by
the caller (whether `head_bucket` sees it or the creation call reports
`BucketAlreadyOwnedByYou`), `create_bucket` returns `True` twice in
succession, the already-owned outcome being treated as success. -/
theorem c2_create_bucket_idempotent (s : BucketState)
    (h : s = BucketState.ownedByCaller ∨ s = BucketState.ownedHeadMiss) :
    (create_bucket s).2.1 = Except.ok true ∧
    (create_bucket (create_bucket s).1).2.1 = Except.ok true := by
  rcases h with h | h <;> subst h <;> exact ⟨rfl, rfl⟩

/-- Witness for C2 at the concrete owned-bucket state. -/
theorem c2_create_bucket_idempotent_witness :
    (create_bucket BucketState.ownedByCaller).2.1 = Except.ok true ∧
    (create_bucket (create_bucket BucketState.ownedByCaller).1).2.1 = Except.ok true :=
  c2_create_bucket_idempotent BucketState.ownedByCaller (Or.inl rfl)

/-- Claim C9: when the existence check gets an access-denied (403) error,
`bucket_exists` returns `True`, and `create_bucket` returns success with
only the `head_bucket` call in its trace — the creation API is never
attempted and the state is untouched. -/
theorem c9_access_denied_bucket_treated_existing (s : BucketState)
    (h : headBucket s = Except.error AwsErr.accessDenied403) :
    bucket_exists s = Except.ok true ∧
    (create_bucket s).2.1 = Except.ok true ∧
    (create_bucket s).2.2 = [S3Call.headBucket] ∧
    (create_bucket s).1 = s := by
  cases s <;> simp_all [headBucket, bucket_exists, create_bucket]

/-- Witness for C9 at the concrete access-denied bucket state. -/
theorem c9_access_denied_bucket_treated_existing_witness :
    bucket_exists BucketState.existsNoAccess = Except.ok true ∧
    (create_bucket BucketState.existsNoAccess).2.1 = Except.ok true ∧
    (create_bucket BucketState.existsNoAccess).2.2 = [S3Call.headBucket] ∧
    (create_bucket BucketState.existsNoAccess).1 = BucketState.existsNoAccess :=
  c9_access_denied_bucket_treated_existing BucketState.existsNoAccess rfl

/-- Claim C7: `close_session` never lets an exception escape; with no
active session it is a no-op making no service call; a stop error leaves
the stored session untouched; and repeating the call leaves the resulting
session state fixed. -/
theorem c7_close_session_noop_noraise (session : Option Nat) (stopRaises : Bool) :
    (close_session session stopRaises).2.2 = false ∧
    (session = none → close_session session stopRaises = (none, [], false)) ∧
    (stopRaises = true → (close_session session stopRaises).1 = session) ∧
    (close_session (close_session session stopRaises).1 stopRaises).1 =
      (close_session session stopRaises).1 := by
  cases session <;> cases stopRaises <;> simp [close_session]

/-- Witness for C7: stopping with no active session. -/
theorem c7_close_session_noop_noraise_witness :
    (close_session none true).2.2 = false ∧
    ((none : Option Nat) = none → close_session none true = (none, [], false)) ∧
    (true = true → (close_session none true).1 = none) ∧
    (close_session (close_session none true).1 true).1 = (close_session none true).1 :=
  c7_close_session_noop_noraise none true

/-- Claim C8 (amended): the issuance operation passes the duration to a
single identity-service call (no retry), propagates a failure unchanged,
and on success returns a dict holding exactly the access key, secret key
and session token — the expiry received from the service is not part of
the returned value. -/
theorem c8_credentials_issuance (respond : Except AwsErr StsCredentials) (d : Nat) :
    (get_temporary_credentials respond d).2 = [NetCall.getSessionToken d] ∧
    (∀ e, respond = Except.error e →
      (get_temporary_credentials respond d).1 = Except.error e) ∧
    (∀ c, respond = Except.ok c →
      (get_temporary_credentials respond d).1 = Except.ok (stsDict c) ∧
      dictGet (stsDict c) ("AccessKeyId".data) = some c.accessKeyId ∧
      dictGet (stsDict c) ("SecretAccessKey".data) = some c.secretAccessKey ∧
      dictGet (stsDict c) ("SessionToken".data) = some c.sessionToken ∧
      dictGet (stsDict c) ("Expiration".data) = none) := by
  refine ⟨rfl, ?_, ?_⟩
  · intro e he
    subst he
    rfl
  · intro c hc
    subst hc
    refine ⟨rfl, ?_, ?_, ?_, ?_⟩ <;> simp [stsDict, dictGet]

/-- Witness for C8 at a concrete successful response. -/
theorem c8_credentials_issuance_witness :
    (get_temporary_credentials
        (Except.ok ⟨"AK".data, "SK".data, "TK".data, "EXP".data⟩) 3600).2 =
      [NetCall.getSessionToken 3600] ∧
    (∀ e, (Except.ok ⟨"AK".data, "SK".data, "TK".data, "EXP".data⟩ :
        Except AwsErr StsCredentials) = Except.error e →
      (get_temporary_credentials
        (Except.ok ⟨"AK".data, "SK".data, "TK".data, "EXP".data⟩) 3600).1 =
        Except.error e) ∧
    (∀ c, (Except.ok ⟨"AK".data, "SK".data, "TK".data, "EXP".data⟩ :
        Except AwsErr StsCredentials) = Except.ok c →
      (get_temporary_credentials
        (Except.ok ⟨"AK".data, "SK".data, "TK".data, "EXP".data⟩) 3600).1 =
        Except.ok (stsDict c) ∧
      dictGet (stsDict c) ("AccessKeyId".data) = some c.accessKeyId ∧
      dictGet (stsDict c) ("SecretAccessKey".data) = some c.secretAccessKey ∧
      dictGet (stsDict c) ("SessionToken".data) = some c.sessionToken ∧
      dictGet (stsDict c) ("Expiration".data) = none) :=
  c8_credentials_issuance
    (Except.ok ⟨"AK".data, "SK".data, "TK".data, "EXP".data⟩) 3600

/-- Counterexample to C8 as stated: at a concrete service response that
does carry an expiry, the value returned by the operation has no
`Expiration` entry — the claim that the operation returns the expiry is
false. -/
theorem c8_expiry_not_returned :
    (get_temporary_credentials
        (Except.ok ⟨"AK".data, "SK".data, "TK".data, "EXP".data⟩) 3600).1 =
      Except.ok (stsDict ⟨"AK".data, "SK".data, "TK".data, "EXP".data⟩) ∧
    dictGet (stsDict ⟨"AK".data, "SK".data, "TK".data, "EXP".data⟩)
        ("Expiration".data) = none ∧
    (⟨"AK".data, "SK".data, "TK".data, "EXP".data⟩ : StsCredentials).expiration ≠ [] := by
  refine ⟨rfl, by decide, by decide⟩

/-- Claim C4: uploading a file and then verifying the returned URI
round-trips — the upload yields `s3://<bucket>/extensions/<name>`, and
verification succeeds, reporting exactly the uploaded file's size. -/
theorem c4_upload_verify_roundtrip (store : ObjStore) (bucket name : Str)
    (size : Nat) (hb : '/' ∉ bucket) :
    (upload_extension store bucket name size none false).2.1 =
      Except.ok (mkS3Uri bucket (extensionsKey name)) ∧
    verify_access (upload_extension store bucket name size none false).1
        (mkS3Uri bucket (extensionsKey name)) false =
      (true, some size, [S3Call.headObject]) := by
  have hstart : strStartsWith s3SchemeChars (mkS3Uri bucket (extensionsKey name)) = true := by
    rw [mkS3Uri]
    exact strStartsWith_append s3SchemeChars (bucket ++ '/' :: extensionsKey name)
  have hdrop : (mkS3Uri bucket (extensionsKey name)).drop 5 =
      bucket ++ '/' :: extensionsKey name := rfl
  have hsplit := splitFirst_append '/' bucket (extensionsKey name) hb
  refine ⟨rfl, ?_⟩
  simp [verify_access, hstart, hdrop, hsplit, upload_extension, head_object, lookupSize]

/-- Witness for C4 at a concrete store, bucket and file. -/
theorem c4_upload_verify_roundtrip_witness :
    '/' ∉ ("b".data) ∧
    ((upload_extension [] ("b".data) ("e.zip".data) 7 none false).2.1 =
      Except.ok (mkS3Uri ("b".data) (extensionsKey ("e.zip".data))) ∧
    verify_access (upload_extension [] ("b".data) ("e.zip".data) 7 none false).1
        (mkS3Uri ("b".data) (extensionsKey ("e.zip".data))) false =
      (true, some 7, [S3Call.headObject])) :=
  ⟨by decide, c4_upload_verify_roundtrip [] ("b".data) ("e.zip".data) 7 (by decide)⟩

/-- Claim C10: whenever bucket creation reports success and the upload
itself succeeds, `setup_and_upload` returns the S3 URI of the uploaded
object, even when the subsequent access verification fails (here: the
`head_object` of the verification step is denied) — verification failure
never produces the `None` failure value. -/
theorem c10_verify_failure_nonfatal (s : BucketState) (store : ObjStore)
    (bucket name : Str) (size : Nat) (denied : Bool)
    (h : (create_bucket s).2.1 = Except.ok true) :
    (setup_and_upload s store bucket name size false denied).2.2 =
      Except.ok (some (mkS3Uri bucket (extensionsKey name))) ∧
    verify_access (upload_extension store bucket name size none false).1
        (mkS3Uri bucket (extensionsKey name)) true =
      (false, none, [S3Call.headObject]) := by
  have hstart : strStartsWith s3SchemeChars (mkS3Uri bucket (extensionsKey name)) = true := by
    rw [mkS3Uri]
    exact strStartsWith_append s3SchemeChars (bucket ++ '/' :: extensionsKey name)
  constructor
  · simp [setup_and_upload, h, upload_extension]
  · simp [verify_access, hstart, head_object]

/-- Witness for C10 at a concrete owned bucket with a denied verification. -/
theorem c10_verify_failure_nonfatal_witness :
    (create_bucket BucketState.ownedByCaller).2.1 = Except.ok true ∧
    ((setup_and_upload BucketState.ownedByCaller [] ("b".data) ("e.zip".data) 7
        false true).2.2 =
      Except.ok (some (mkS3Uri ("b".data) (extensionsKey ("e.zip".data)))) ∧
    verify_access (upload_extension [] ("b".data) ("e.zip".data) 7 none false).1
        (mkS3Uri ("b".data) (extensionsKey ("e.zip".data))) true =
      (false, none, [S3Call.headObject])) :=
  ⟨rfl, c10_verify_failure_nonfatal BucketState.ownedByCaller [] ("b".data)
    ("e.zip".data) 7 true rfl⟩

/-- Claim C5 (amended): a locator without the `s3://` scheme is rejected by
`verify_access` before any service call (result `False`, empty call
trace); `create_browser_session`, however, does not reject it — the
invalid locator is silently dropped from the request and the
session-creation call is still issued. -/
theorem c5_invalid_locator_handling (store : ObjStore) (uri : Str) (denied : Bool)
    (uris : List Str) (api : Except AwsErr Nat)
    (h : strStartsWith s3SchemeChars uri = false) :
    verify_access store uri denied = (false, none, []) ∧
    parseExtensionLocations (uri :: uris) = parseExtensionLocations uris ∧
    (create_browser_session uris api).2 =
      [BrowserCall.startBrowserSession (parseExtensionLocations uris)] := by
  refine ⟨?_, ?_, rfl⟩
  · simp [verify_access, h]
  · simp [parseExtensionLocations, h]

/-- Witness for C5 at a concrete scheme-less locator. -/
theorem c5_invalid_locator_handling_witness :
    strStartsWith s3SchemeChars ("bad".data) = false ∧
    (verify_access [] ("bad".data) false = (false, none, []) ∧
    parseExtensionLocations (("bad".data) :: []) = parseExtensionLocations [] ∧
    (create_browser_session [] (Except.ok 1)).2 =
      [BrowserCall.startBrowserSession (parseExtensionLocations [])]) :=
  ⟨by decide, c5_invalid_locator_handling [] ("bad".data) false [] (Except.ok 1)
    (by decide)⟩

/-- Counterexample to C5 as stated: at the concrete invalid locator
`"bad"`, `create_browser_session` — an operation consuming the locator —
does not reject it: it succeeds, and its network call is made (non-empty
call trace). -/
theorem c5_session_call_despite_invalid_locator :
    (create_browser_session [("bad".data)] (Except.ok 1)).1 = Except.ok 1 ∧
    (create_browser_session [("bad".data)] (Except.ok 1)).2 =
      [BrowserCall.startBrowserSession []] ∧
    (create_browser_session [("bad".data)] (Except.ok 1)).2 ≠ [] := by
  refine ⟨rfl, by decide, by decide⟩

/-- Claim C3 (amended): with zero extension archive paths the orchestrator
exits with code 1 after the prerequisites stage, no storage or browser
stage runs and no session-stop call is made — but the prerequisites stage
has already attempted the `get_caller_identity` network call. -/
theorem c3_no_extensions_exits_nonzero (i : RunInput) (h : i.extensions = []) :
    (run i).exitCode = 1 ∧
    (run i).executed = [Stage.prereq] ∧
    (run i).prereqNetCalls = [NetCall.getCallerIdentity] ∧
    (run i).stopSessionCalled = false := by
  have hpre : check_prerequisites i.stsOk i.extensions =
      (false, [NetCall.getCallerIdentity]) := by
    rw [h]
    cases i.stsOk <;> rfl
  simp [run, hpre]

/-- Witness for C3 at a concrete zero-extension invocation. -/
theorem c3_no_extensions_exits_nonzero_witness :
    (run ⟨true, [], StageOutcome.ok, StageOutcome.ok, StageOutcome.ok,
        true, false⟩).exitCode = 1 ∧
    (run ⟨true, [], StageOutcome.ok, StageOutcome.ok, StageOutcome.ok,
        true, false⟩).executed = [Stage.prereq] ∧
    (run ⟨true, [], StageOutcome.ok, StageOutcome.ok, StageOutcome.ok,
        true, false⟩).prereqNetCalls = [NetCall.getCallerIdentity] ∧
    (run ⟨true, [], StageOutcome.ok, StageOutcome.ok, StageOutcome.ok,
        true, false⟩).stopSessionCalled = false :=
  c3_no_extensions_exits_nonzero
    ⟨true, [], StageOutcome.ok, StageOutcome.ok, StageOutcome.ok, true, false⟩ rfl

/-- Counterexample to C3 as stated: at a concrete zero-extension
invocation the exit code is non-zero, yet the list of network calls
attempted is not empty — the identity call was made before the
extension-list check. -/
theorem c3_network_call_attempted :
    (run ⟨true, [], StageOutcome.ok, StageOutcome.ok, StageOutcome.ok,
        true, false⟩).exitCode = 1 ∧
    (run ⟨true, [], StageOutcome.ok, StageOutcome.ok, StageOutcome.ok,
        true, false⟩).prereqNetCalls ≠ [] := by
  decide

/-- Claim C6 (amended): `cleanup` runs on every path of `run`; a failure of
the prerequisites, preparation, upload or browser-creation stage stops the
pipeline at that stage (no later stage is entered) with exit code 1; and a
user interrupt escaping a stage yields exit code 130 (cleanup still ran).
The failure of the extension-test stage, by contrast, is not propagated
(see the counterexample). -/
theorem c6_failure_halts_and_cleanup_runs (i : RunInput) :
    (run i).cleanupRan = true ∧
    ((check_prerequisites i.stsOk i.extensions).1 = false →
      (run i).exitCode = 1 ∧ (run i).executed = [Stage.prereq]) ∧
    ((check_prerequisites i.stsOk i.extensions).1 = true →
      i.prepareOut = StageOutcome.fail →
      (run i).exitCode = 1 ∧ (run i).executed = [Stage.prereq, Stage.prepare]) ∧
    ((check_prerequisites i.stsOk i.extensions).1 = true →
      i.prepareOut = StageOutcome.ok → i.uploadOut = StageOutcome.fail →
      (run i).exitCode = 1 ∧
      (run i).executed = [Stage.prereq, Stage.prepare, Stage.upload]) ∧
    ((check_prerequisites i.stsOk i.extensions).1 = true →
      i.prepareOut = StageOutcome.ok → i.uploadOut = StageOutcome.ok →
      i.prepareOnly = false → i.createOut = StageOutcome.fail →
      (run i).exitCode = 1 ∧
      (run i).executed =
        [Stage.prereq, Stage.prepare, Stage.upload, Stage.createBrowser]) ∧
    ((check_prerequisites i.stsOk i.extensions).1 = true →
      (i.prepareOut = StageOutcome.intr ∨
       (i.prepareOut = StageOutcome.ok ∧ i.uploadOut = StageOutcome.intr) ∨
       (i.prepareOut = StageOutcome.ok ∧ i.uploadOut = StageOutcome.ok ∧
        i.prepareOnly = false ∧ i.createOut = StageOutcome.intr)) →
      (run i).exitCode = 130) := by
  obtain ⟨sts, exts, po, uo, co, tb, pon⟩ := i
  cases hpre : (check_prerequisites sts exts).1 <;>
    cases po <;> cases uo <;> cases co <;> cases pon <;>
      simp_all [run]

/-- Witness for C6 at a concrete run whose preparation stage fails. -/
theorem c6_failure_halts_and_cleanup_runs_witness :
    (run ⟨true, [(("e".data), true)], StageOutcome.fail, StageOutcome.ok,
        StageOutcome.ok, true, false⟩).cleanupRan = true ∧
    (run ⟨true, [(("e".data), true)], StageOutcome.fail, StageOutcome.ok,
        StageOutcome.ok, true, false⟩).exitCode = 1 ∧
    (run ⟨true, [(("e".data), true)], StageOutcome.fail, StageOutcome.ok,
        StageOutcome.ok, true, false⟩).executed = [Stage.prereq, Stage.prepare] :=
  ⟨(c6_failure_halts_and_cleanup_runs
      ⟨true, [(("e".data), true)], StageOutcome.fail, StageOutcome.ok,
        StageOutcome.ok, true, false⟩).1,
   ((c6_failure_halts_and_cleanup_runs
      ⟨true, [(("e".data), true)], StageOutcome.fail, StageOutcome.ok,
        StageOutcome.ok, true, false⟩).2.2.1 (by decide) rfl).1,
   ((c6_failure_halts_and_cleanup_runs
      ⟨true, [(("e".data), true)], StageOutcome.fail, StageOutcome.ok,
        StageOutcome.ok, true, false⟩).2.2.1 (by decide) rfl).2⟩

/-- Counterexample to C6 as stated: at a concrete run where every guarded
stage succeeds but the extension-test stage fails, the process still exits
with code 0 — a stage failure that yields neither a halt nor a non-zero
exit code. -/
theorem c6_test_stage_failure_ignored :
    (run ⟨true, [(("e".data), true)], StageOutcome.ok, StageOutcome.ok,
        StageOutcome.ok, false, false⟩).exitCode = 0 ∧
    (run ⟨true, [(("e".data), true)], StageOutcome.ok, StageOutcome.ok,
        StageOutcome.ok, false, false⟩).executed =
      [Stage.prereq, Stage.prepare, Stage.upload, Stage.createBrowser,
       Stage.testExt] := by
  decide

/-- The archive of the plain packaging contains exactly the file paths of
the tree. -/
theorem mem_package_extension (cs : List FSTree) :
    ∀ p : List Str, p ∈ package_extension cs ↔ existsFileAt cs p = true := by
  induction cs using package_extension.induct with
  | case1 =>
    intro p
    simp [package_extension, existsFileAt]
  | case2 n rest ih =>
    intro p
    cases p with
    | nil => simp [package_extension, existsFileAt, ih]
    | cons a q =>
      cases q with
      | nil =>
        simp only [package_extension, List.mem_cons, ih, existsFileAt,
          Bool.or_eq_true, decide_eq_true_eq, List.cons.injEq, and_true]
        exact or_congr eq_comm Iff.rfl
      | cons b r =>
        simp [package_extension, existsFileAt, ih]
  | case3 n cs1 rest ih1 ih2 =>
    intro p
    cases p with
    | nil =>
      simp [package_extension, existsFileAt, ih1, ih2, existsFileAt_nil]
    | cons a q =>
      simp only [package_extension, List.mem_append, List.mem_map, ih1, ih2,
        existsFileAt, Bool.or_eq_true, Bool.and_eq_true, decide_eq_true_eq,
        List.cons.injEq]
      constructor
      · rintro (⟨x, hx, hn, hq⟩ | h)
        · subst hq
          exact Or.inl ⟨hn, hx⟩
        · exact Or.inr h
      · rintro (⟨hn, hq⟩ | h)
        · exact Or.inl ⟨q, hq, hn, rfl⟩
        · exact Or.inr h

/-- The archive of the bedrock packaging walk contains exactly the file
paths of the tree that are not excluded (no hidden or `node_modules`
directory component, no hidden or `.map` file name). -/
theorem mem_bedrock_walk_entries (cs : List FSTree) :
    ∀ p : List Str, p ∈ bedrock_walk_entries cs ↔
      (existsFileAt cs p = true ∧ bedrockExcluded p = false) := by
  induction cs using bedrock_walk_entries.induct with
  | case1 =>
    intro p
    simp [bedrock_walk_entries, existsFileAt]
  | case2 n rest h ih =>
    intro p
    cases p with
    | nil => simp [bedrock_walk_entries, h, ih, bedrockExcluded]
    | cons a q =>
      cases q with
      | nil =>
        by_cases hna : n = a
        · subst hna
          simp [bedrock_walk_entries, h, ih, bedrockExcluded, existsFileAt]
        · simp [bedrock_walk_entries, h, ih, bedrockExcluded, existsFileAt, hna]
      | cons b r =>
        simp [bedrock_walk_entries, h, ih, existsFileAt]
  | case3 n rest h ih =>
    intro p
    cases p with
    | nil => simp [bedrock_walk_entries, h, ih, bedrockExcluded]
    | cons a q =>
      cases q with
      | nil =>
        by_cases hna : n = a
        · subst hna
          simp [bedrock_walk_entries, h, ih, bedrockExcluded, existsFileAt]
        · simp [bedrock_walk_entries, h, ih, bedrockExcluded, existsFileAt,
            hna, Ne.symm hna]
      | cons b r =>
        simp [bedrock_walk_entries, h, ih, existsFileAt, bedrockExcluded]
  | case4 n cs1 rest h ih =>
    intro p
    cases p with
    | nil => simp [bedrock_walk_entries, h, ih, bedrockExcluded]
    | cons a q =>
      by_cases hna : n = a
      · subst hna
        cases q with
        | nil =>
          simp [bedrock_walk_entries, h, ih, existsFileAt, existsFileAt_nil]
        | cons b r =>
          simp [bedrock_walk_entries, h, ih, existsFileAt, bedrockExcluded]
      · simp [bedrock_walk_entries, h, ih, existsFileAt, hna]
  | case5 n cs1 rest h ih1 ih2 =>
    intro p
    cases p with
    | nil =>
      simp [bedrock_walk_entries, h, ih1, ih2, bedrockExcluded]
    | cons a q =>
      cases q with
      | nil =>
        by_cases hna : n = a
        · subst hna
          simp [bedrock_walk_entries, h, ih1, ih2, existsFileAt,
            existsFileAt_nil, bedrockExcluded]
        · simp [bedrock_walk_entries, h, ih1, ih2, existsFileAt,
            existsFileAt_nil, bedrockExcluded, hna, Ne.symm hna]
      | cons b r =>
        by_cases hna : n = a
        · subst hna
          have hd : bedrockDirSkipped n = false := by
            simpa using h
          simp [bedrock_walk_entries, hd, ih1, ih2, existsFileAt,
            bedrockExcluded, List.cons.injEq]
          tauto
        · simp [bedrock_walk_entries, h, ih1, ih2, existsFileAt,
            bedrockExcluded, hna, Ne.symm hna]

/-- Claim C1 (amended): the bedrock packaging archive contains exactly the
regular files of the build tree that are not excluded (no hidden or
`node_modules` directory component, no hidden or `.map` file name), with
relative paths preserved, and is produced only when `manifest.json` is
present; the plain `ExtensionSetup` packaging archive contains exactly all
regular files of the tree — including hidden files — with relative paths
preserved. -/
theorem c1_packaging_exact_entries (cs : List FSTree) (p : List Str) :
    (p ∈ package_extension cs ↔ existsFileAt cs p = true) ∧
    (p ∈ bedrock_walk_entries cs ↔
      (existsFileAt cs p = true ∧ bedrockExcluded p = false)) ∧
    (hasManifest cs = false → bedrock_package_extension cs = none) ∧
    (hasManifest cs = true →
      bedrock_package_extension cs = some (bedrock_walk_entries cs)) := by
  refine ⟨mem_package_extension cs p, mem_bedrock_walk_entries cs p, ?_, ?_⟩ <;>
    intro h <;> simp [bedrock_package_extension, h]

/-- Witness for C1 at a concrete tree holding a manifest and a hidden
file. -/
theorem c1_packaging_exact_entries_witness :
    (([(".env".data)] ∈ package_extension
        [FSTree.file ("manifest.json".data), FSTree.file (".env".data)] ↔
      existsFileAt
        [FSTree.file ("manifest.json".data), FSTree.file (".env".data)]
        [(".env".data)] = true) ∧
    ([(".env".data)] ∈ bedrock_walk_entries
        [FSTree.file ("manifest.json".data), FSTree.file (".env".data)] ↔
      (existsFileAt
        [FSTree.file ("manifest.json".data), FSTree.file (".env".data)]
        [(".env".data)] = true ∧
       bedrockExcluded [(".env".data)] = false)) ∧
    (hasManifest
        [FSTree.file ("manifest.json".data), FSTree.file (".env".data)] = false →
      bedrock_package_extension
        [FSTree.file ("manifest.json".data), FSTree.file (".env".data)] = none) ∧
    (hasManifest
        [FSTree.file ("manifest.json".data), FSTree.file (".env".data)] = true →
      bedrock_package_extension
        [FSTree.file ("manifest.json".data), FSTree.file (".env".data)] =
        some (bedrock_walk_entries
          [FSTree.file ("manifest.json".data), FSTree.file (".env".data)]))) :=
  c1_packaging_exact_entries
    [FSTree.file ("manifest.json".data), FSTree.file (".env".data)]
    [(".env".data)]

/-- Counterexample to C1 as stated: packaging via
`ExtensionSetup.package_extension` a concrete extension directory that
holds the hidden file `.env` produces an archive in which that hidden file
is present — hidden files are not absent from the archive. -/
theorem c1_basic_packaging_includes_hidden :
    [(".env".data)] ∈ package_extension
        [FSTree.file ("manifest.json".data), FSTree.file (".env".data)] ∧
    hiddenName (".env".data) = true ∧
    existsFileAt
        [FSTree.file ("manifest.json".data), FSTree.file (".env".data)]
        [(".env".data)] = true := by
  refine ⟨?_, by decide, by simp [existsFileAt]⟩
  simp [package_extension]
